import Mathlib

/-!
Verification of the WaveLogStoat QSO-forwarding pipeline.

This file shallowly embeds the message-parsing and normalization core of the
repository (the Go functions `normalizeQSO`, `normalizePower`, `calculateBand`,
`parseADIFMessage`, `parseXMLMessage`, `generateADIF`, and the batch splitter
of `processMultipleQSOs`) and proves properties about the embedding.

Modelling conventions:
* Go strings are modelled as Lean `String`s operated on through their
  character lists.  All payloads appearing in the development are ASCII, so
  Go's byte indexing and the character indexing used here coincide; where the
  serializer's length prefix is a Go byte length we use `String.utf8ByteSize`,
  which is the byte length of the UTF-8 encoding Go uses.
* Go `float64` arithmetic (`strconv.ParseFloat`, multiplication by `1000` and
  `0.001`, division by `100000`, `fmt.Sprintf("%.Nf")`) is modelled by exact
  scaled-decimal arithmetic (the type `Dec` below).  Every numeric value the
  source manipulates is a decimal string scaled by a power of ten, so the
  exact value is a decimal fraction; on such inputs the float64 computation
  is correctly rounded to the same formatted decimal output.
* Library functions (`strings.TrimSpace`, `strings.Index`, `strings.Split`,
  `strconv.Atoi`, Go's regexp engine on the two concrete patterns used by the
  source, `time.Parse` on the one concrete layout used) are modelled directly;
  each model notes its faithfulness conditions in its doc comment.
-/

/-- The whitespace set of Go's `strings.TrimSpace` (`unicode.IsSpace`),
restricted to the Latin-1 range; payloads here contain only ASCII. -/
def isGoSpace (c : Char) : Bool :=
  c = ' ' || c = '\t' || c = '\n' || c = '\x0b' || c = '\x0c' || c = '\r' ||
  c = '\x85' || c = '\xa0'

/-- Trim `isGoSpace` characters from both ends of a character list. -/
def listTrim (l : List Char) : List Char :=
  ((l.dropWhile isGoSpace).reverse.dropWhile isGoSpace).reverse

/-- Model of Go `strings.TrimSpace`. -/
def goTrimSpace (s : String) : String := ⟨listTrim s.data⟩

/-- Model of Go `strings.ToLower`; the inputs considered are ASCII, where
`Char.toLower` agrees with Go's Unicode lowering. -/
def asciiLowerStr (s : String) : String := ⟨s.data.map Char.toLower⟩

/-- Model of Go `strings.ToUpper`; applied by the source only to ADIF tag
names, which match `[a-zA-Z_]+`, where `Char.toUpper` agrees with Go. -/
def asciiUpperStr (s : String) : String := ⟨s.data.map Char.toUpper⟩

/-- Numeric value of a list of decimal digit characters (most significant
first); `natOfDigits []` is `0`. -/
def natOfDigits (l : List Char) : Nat :=
  l.foldl (fun a c => 10 * a + (c.toNat - 48)) 0

/-- Model of Go `strings.Contains` on character lists. -/
def containsSub (pat : List Char) : List Char → Bool
  | [] => pat.isEmpty
  | c :: r => pat.isPrefixOf (c :: r) || containsSub pat r

/-- Index of the first occurrence of `pat` in `l`, or `l.length` when `pat`
does not occur.  Models Go `strings.Index` on the call sites of the source,
where the pattern is always present (Go returns `-1` when absent; that case is
unreachable in `parseADIFMessage`, and the `l.length` convention makes the
corresponding tag be skipped there). -/
def firstIdx (pat : List Char) : List Char → Nat
  | [] => 0
  | c :: r => if pat.isPrefixOf (c :: r) then 0 else 1 + firstIdx pat r

/-- Ten to the power `k` as an integer. -/
def pow10 (k : Nat) : Int := ((10 ^ k : Nat) : Int)

/-- An exact decimal fraction `mant / 10 ^ exp`.  This is the value domain of
the source's float64 computations: every number it handles is a decimal
string, optionally scaled by `1000`, `0.001`, or `1/100000` — all exact
decimal operations. -/
structure Dec where
  mant : Int
  exp : Nat
  deriving Repr, DecidableEq

/-- Comparison of two decimal fractions (cross-multiplied). -/
def Dec.leb (a b : Dec) : Bool := a.mant * pow10 b.exp ≤ b.mant * pow10 a.exp

/-- Whether a decimal fraction is a whole number — the exact counterpart of
the source's `value == math.Floor(value)` test. -/
def Dec.isWhole (a : Dec) : Bool := a.mant % pow10 a.exp = 0

/-- The integer value of a whole decimal fraction. -/
def Dec.wholeVal (a : Dec) : Int := a.mant / pow10 a.exp

/-- Multiplication by a natural constant (used for `value * 1000`). -/
def Dec.mulNat (a : Dec) (k : Nat) : Dec := ⟨a.mant * (k : Int), a.exp⟩

/-- Division by `10 ^ k` (used for `value * 0.001` and `freq / 100000`,
both exact decimal scalings). -/
def Dec.divPow10 (a : Dec) (k : Nat) : Dec := ⟨a.mant, a.exp + k⟩

/-- Model of Go `strconv.ParseFloat` for ordinary decimal notation
(optional sign, digits with optional fractional part, optional decimal
exponent), returning the exact decimal value.  The source applies it to
frequency and power strings; the special float syntaxes Go additionally
accepts (hex floats, `inf`, `nan`, digit-separating underscores) are outside
the model. -/
def goParseFloatDec (s : String) : Option Dec :=
  let p1 : Int × List Char :=
    match s.data with
    | '+' :: r => (1, r)
    | '-' :: r => (-1, r)
    | r => (1, r)
  let sign := p1.1
  let l1 := p1.2
  let ip := l1.takeWhile Char.isDigit
  let l2 := l1.drop ip.length
  let p2 : List Char × List Char :=
    match l2 with
    | '.' :: r => (r.takeWhile Char.isDigit, r.drop (r.takeWhile Char.isDigit).length)
    | r => ([], r)
  let fp := p2.1
  let l3 := p2.2
  if ip.isEmpty && fp.isEmpty then none
  else
    let mantissa : Dec := ⟨sign * ((natOfDigits ip * 10 ^ fp.length + natOfDigits fp : Nat) : Int), fp.length⟩
    match l3 with
    | [] => some mantissa
    | c :: r =>
      if c = 'e' || c = 'E' then
        let p3 : Bool × List Char :=
          match r with
          | '+' :: r2 => (false, r2)
          | '-' :: r2 => (true, r2)
          | r2 => (false, r2)
        let ed := p3.2.takeWhile Char.isDigit
        if ed.isEmpty || !(p3.2.drop ed.length).isEmpty then none
        else if p3.1 then some (mantissa.divPow10 (natOfDigits ed))
        else some ⟨mantissa.mant * pow10 (natOfDigits ed), mantissa.exp⟩
      else none

/-- Round `n / d` (`d > 0`) to the nearest integer, ties to even — the
rounding of Go's binary-to-decimal formatting. -/
def roundDiv (n d : Int) : Int :=
  let q := n.fdiv d
  let r := n - d * q
  if 2 * r < d then q else if d < 2 * r then q + 1 else if q % 2 = 0 then q else q + 1

/-- Decimal rendering of `n` left-padded with zeros to width `w`. -/
def padZeros (w : Nat) (n : Nat) : String :=
  let s := toString n
  ⟨List.replicate (w - s.length) '0' ++ s.data⟩

/-- Model of Go `fmt.Sprintf("%.<prec>f", ·)` (`prec > 0`) on the exact
decimal value. -/
def fmtFixed (prec : Nat) (v : Dec) : String :=
  let sgn := if v.mant < 0 then "-" else ""
  let am := if v.mant < 0 then -v.mant else v.mant
  let m := (roundDiv (am * pow10 prec) (pow10 v.exp)).toNat
  sgn ++ toString (m / 10 ^ prec) ++ "." ++ padZeros prec (m % 10 ^ prec)

/-- The contact record of `main.go` (struct `QSO`).  All fields are strings
defaulting to empty.  The Go struct's trailing `Created bool` and
`Fail interface{}` members are not touched by any of the functions modelled
here and are omitted.  The Go field `PREFIX` is rendered as `PFX`
(its ADIF tag name stays the string `"PREFIX"`). -/
structure QSO where
  CALL : String := ""
  MODE : String := ""
  QSO_DATE_OFF : String := ""
  QSO_DATE : String := ""
  TIME_OFF : String := ""
  TIME_ON : String := ""
  RST_RCVD : String := ""
  RST_SENT : String := ""
  FREQ : String := ""
  FREQ_RX : String := ""
  OPERATOR : String := ""
  COMMENT : String := ""
  POWER : String := ""
  STX : String := ""
  SRX : String := ""
  STX_STRING : String := ""
  SRX_STRING : String := ""
  RTX : String := ""
  MYCALL : String := ""
  GRIDSQUARE : String := ""
  MY_GRIDSQUARE : String := ""
  STATION_CALLSIGN : String := ""
  BAND : String := ""
  NAME : String := ""
  QTH : String := ""
  STATE : String := ""
  COUNTRY : String := ""
  CQZ : String := ""
  ITUZ : String := ""
  CONT : String := ""
  IOTA : String := ""
  DXCC : String := ""
  PROP_MODE : String := ""
  SAT_NAME : String := ""
  SAT_MODE : String := ""
  CONTEST_ID : String := ""
  PFX : String := ""
  SUBMODE : String := ""
  QSLMSG : String := ""
  NOTES : String := ""
  EMAIL : String := ""
  DARC_DOK : String := ""
  SOTA_REF : String := ""
  WWFF_REF : String := ""
  POTA_REF : String := ""
  CNTY : String := ""
  REGION : String := ""
  LAT : String := ""
  LON : String := ""
  ANT_AZ : String := ""
  ANT_EL : String := ""
  ANT_PATH : String := ""
  A_INDEX : String := ""
  K_INDEX : String := ""
  SFI : String := ""
  RX_PWR : String := ""
  deriving Repr, DecidableEq

/-- The leading numeric token of Go regexp `^(\d+(?:\.\d+)?)` applied to a
character list: one or more digits, optionally followed by a dot and one or
more digits (greedy, anchored at the start), or `none` when the list does not
start with a digit. -/
def extractNumTok (l : List Char) : Option (List Char) :=
  let ds := l.takeWhile Char.isDigit
  if ds.isEmpty then none
  else
    match l.drop ds.length with
    | '.' :: r =>
      let fs := r.takeWhile Char.isDigit
      if fs.isEmpty then some ds else some (ds ++ '.' :: fs)
    | _ => some ds

/-- Embedding of `normalizePower` (normalizer part of the source):
trim/lowercase, extract the leading numeric token, scale by the `kw`/`mw`
unit when present, and re-render (no decimals when whole, else three).
Go's float64 value-is-whole test `value == math.Floor(value)` is `Dec.isWhole`
on the exact value. -/
def normalizePower (powerStr : String) : String :=
  if powerStr = "" then powerStr
  else
    let p := goTrimSpace (asciiLowerStr powerStr)
    match extractNumTok p.data with
    | none => p
    | some tok =>
      match goParseFloatDec ⟨tok⟩ with
      | none => p
      | some v =>
        let value : Dec :=
          if containsSub ['k', 'w'] p.data then v.mulNat 1000
          else if containsSub ['m', 'w'] p.data then v.divPow10 3
          else v
        if value.isWhole then toString value.wholeVal
        else fmtFixed 3 value

/-- The static band table of `calculateBand` (name, lower MHz, upper MHz) in
source order; the bounds are the source's three-decimal literals as exact
decimal fractions (e.g. `⟨1800, 3⟩` is the literal `1.800`). -/
def bandMap : List (String × Dec × Dec) :=
  [("160M", ⟨1800, 3⟩, ⟨2000, 3⟩),
   ("80M", ⟨3500, 3⟩, ⟨4000, 3⟩),
   ("60M", ⟨5330, 3⟩, ⟨5400, 3⟩),
   ("40M", ⟨7000, 3⟩, ⟨7300, 3⟩),
   ("30M", ⟨10100, 3⟩, ⟨10150, 3⟩),
   ("20M", ⟨14000, 3⟩, ⟨14350, 3⟩),
   ("17M", ⟨18068, 3⟩, ⟨18168, 3⟩),
   ("15M", ⟨21000, 3⟩, ⟨21450, 3⟩),
   ("12M", ⟨24890, 3⟩, ⟨24990, 3⟩),
   ("10M", ⟨28000, 3⟩, ⟨29700, 3⟩),
   ("6M", ⟨50000, 3⟩, ⟨54000, 3⟩),
   ("2M", ⟨144000, 3⟩, ⟨148000, 3⟩),
   ("1.25M", ⟨222000, 3⟩, ⟨225000, 3⟩),
   ("70CM", ⟨420000, 3⟩, ⟨450000, 3⟩),
   ("33CM", ⟨902000, 3⟩, ⟨928000, 3⟩),
   ("23CM", ⟨1240000, 3⟩, ⟨1300000, 3⟩)]

/-- Embedding of `calculateBand`: parse the frequency string; empty string on
parse failure, else the name of the first band-table entry whose inclusive
range contains the frequency, else the empty string. -/
def calculateBand (freqStr : String) : String :=
  match goParseFloatDec freqStr with
  | none => ""
  | some freq =>
    match bandMap.find? (fun b => b.2.1.leb freq && freq.leb b.2.2) with
    | some b => b.1
    | none => ""

/-- Embedding of `normalizeQSO`: normalize the power field, then recompute
the band from the frequency when the frequency is non-empty. -/
def normalizeQSO (qso : QSO) : QSO :=
  let q1 := { qso with POWER := normalizePower qso.POWER }
  if q1.FREQ ≠ "" then { q1 with BAND := calculateBand q1.FREQ } else q1

/-- One match of the tag regexp `<([a-zA-Z_]+):(\d+)>` of `parseADIFMessage`:
`full` is the whole match (`match[0]`), `name` the first capture group,
`lenStr` the second. -/
structure ADIFTag where
  full : List Char
  name : List Char
  lenStr : List Char
  deriving Repr, DecidableEq

/-- A character matched by the regexp class `[a-zA-Z_]`. -/
def isNameChar (c : Char) : Bool :=
  ('a' ≤ c && c ≤ 'z') || ('A' ≤ c && c ≤ 'Z') || c = '_'

/-- Attempt to match the tag regexp at the head of the input; on success
return the match and the input remaining after it.  Maximal munch is the
unique match here because the character classes `[a-zA-Z_]` and `\d` are
disjoint from the delimiters `:` and `>` that must follow them. -/
def matchTagAt (l : List Char) : Option (ADIFTag × List Char) :=
  match l with
  | '<' :: rest =>
    let name := rest.takeWhile isNameChar
    if name.isEmpty then none
    else
      match rest.drop name.length with
      | ':' :: rest2 =>
        let digits := rest2.takeWhile Char.isDigit
        if digits.isEmpty then none
        else
          match rest2.drop digits.length with
          | '>' :: rest3 =>
            some (⟨'<' :: name ++ ':' :: digits ++ ['>'], name, digits⟩, rest3)
          | _ => none
      | _ => none
  | _ => none

/-- Leftmost, non-overlapping scan for all matches of the tag regexp — the
model of `re.FindAllStringSubmatch(message, -1)` in `parseADIFMessage`.
The fuel argument bounds the recursion; every step consumes at least one
character, so fuel `l.length` is always sufficient. -/
def findTagsAux : Nat → List Char → List ADIFTag
  | 0, _ => []
  | _, [] => []
  | fuel + 1, c :: rest =>
    match matchTagAt (c :: rest) with
    | some (t, rem) => t :: findTagsAux fuel rem
    | none => findTagsAux fuel rest

/-- All tag matches of a message, leftmost first, non-overlapping. -/
def findTags (l : List Char) : List ADIFTag := findTagsAux l.length l

/-- Model of Go `strconv.Atoi` as called on the `\d+` capture of the tag
regexp: a non-empty all-digit string parses to its value unless it overflows
`int64` (Go then reports `ErrRange`, which the source treats as a skip);
any other input — unreachable from the regexp capture — is `none`. -/
def goAtoi (s : String) : Option Nat :=
  if s.data.isEmpty || !s.data.all Char.isDigit then none
  else
    let v := natOfDigits s.data
    if v ≤ 9223372036854775807 then some v else none

/-- The `switch strings.ToUpper(field)` of `parseADIFMessage`: assign `data`
to the record field named by the (upper-cased) ADIF tag; unrecognized names
leave the record unchanged.  The aliased cases (`QSO_DATE_OFF`, `TIME_OFF`,
`MY_CALL`) populate two fields, exactly as in the source. -/
def setField (q : QSO) (field : String) (data : String) : QSO :=
  match field with
  | "CALL" => { q with CALL := data }
  | "MODE" => { q with MODE := data }
  | "QSO_DATE_OFF" => { q with QSO_DATE_OFF := data, QSO_DATE := data }
  | "QSO_DATE" => { q with QSO_DATE := data }
  | "TIME_OFF" => { q with TIME_OFF := data, TIME_ON := data }
  | "TIME_ON" => { q with TIME_ON := data }
  | "RST_RCVD" => { q with RST_RCVD := data }
  | "RST_SENT" => { q with RST_SENT := data }
  | "FREQ" => { q with FREQ := data }
  | "FREQ_RX" => { q with FREQ_RX := data }
  | "OPERATOR" => { q with OPERATOR := data }
  | "COMMENT" => { q with COMMENT := data }
  | "TX_PWR" => { q with POWER := data }
  | "STX" => { q with STX := data }
  | "SRX" => { q with SRX := data }
  | "STX_STRING" => { q with STX_STRING := data }
  | "SRX_STRING" => { q with SRX_STRING := data }
  | "RTX" => { q with RTX := data }
  | "CONTEST_ID" => { q with CONTEST_ID := data }
  | "PREFIX" => { q with PFX := data }
  | "SUBMODE" => { q with SUBMODE := data }
  | "QSLMSG" => { q with QSLMSG := data }
  | "NOTES" => { q with NOTES := data }
  | "EMAIL" => { q with EMAIL := data }
  | "DARC_DOK" => { q with DARC_DOK := data }
  | "SOTA_REF" => { q with SOTA_REF := data }
  | "WWFF_REF" => { q with WWFF_REF := data }
  | "POTA_REF" => { q with POTA_REF := data }
  | "CNTY" => { q with CNTY := data }
  | "REGION" => { q with REGION := data }
  | "LAT" => { q with LAT := data }
  | "LON" => { q with LON := data }
  | "ANT_AZ" => { q with ANT_AZ := data }
  | "ANT_EL" => { q with ANT_EL := data }
  | "ANT_PATH" => { q with ANT_PATH := data }
  | "A_INDEX" => { q with A_INDEX := data }
  | "K_INDEX" => { q with K_INDEX := data }
  | "SFI" => { q with SFI := data }
  | "RX_PWR" => { q with RX_PWR := data }
  | "MY_CALL" => { q with MYCALL := data, STATION_CALLSIGN := data }
  | "MY_GRIDSQUARE" => { q with MY_GRIDSQUARE := data }
  | "NAME" => { q with NAME := data }
  | "QTH" => { q with QTH := data }
  | "STATE" => { q with STATE := data }
  | "COUNTRY" => { q with COUNTRY := data }
  | "CQZ" => { q with CQZ := data }
  | "ITUZ" => { q with ITUZ := data }
  | "CONT" => { q with CONT := data }
  | "IOTA" => { q with IOTA := data }
  | "DXCC" => { q with DXCC := data }
  | "PROP_MODE" => { q with PROP_MODE := data }
  | "SAT_NAME" => { q with SAT_NAME := data }
  | "SAT_MODE" => { q with SAT_MODE := data }
  | "GRIDSQUARE" => { q with GRIDSQUARE := data }
  | "STATION_CALLSIGN" => { q with STATION_CALLSIGN := data }
  | _ => q

/-- The data slice `message[fieldStart:fieldEnd]` of `parseADIFMessage`,
with `fieldEnd` clamped to the message length exactly as in the source. -/
def extractField (msg : List Char) (fieldStart length : Nat) : List Char :=
  let fieldEnd := if fieldStart + length > msg.length then msg.length else fieldStart + length
  (msg.take fieldEnd).drop fieldStart

/-- The body of the per-match loop of `parseADIFMessage`: locate the data
immediately after the first occurrence of the matched tag text in the whole
message (`strings.Index`), skip the tag when that position is at or past the
end or when its length does not parse, otherwise read the declared number of
characters (clamped to the end), trim, and assign. -/
def applyMatch (msg : List Char) (q : QSO) (t : ADIFTag) : QSO :=
  let fieldStart := firstIdx t.full msg + t.full.length
  if fieldStart ≥ msg.length then q
  else
    match goAtoi ⟨t.lenStr⟩ with
    | none => q
    | some length =>
      let data := goTrimSpace ⟨extractField msg fieldStart length⟩
      setField q (asciiUpperStr ⟨t.name⟩) data

/-- The record accumulated by the tag-scanning loop of `parseADIFMessage`
before the CALL validation. -/
def scanQSO (message : String) : QSO :=
  (findTags message.data).foldl (applyMatch message.data) {}

/-- Embedding of `parseADIFMessage`: scan all tags into a record, then fail
exactly when the call-sign field ends up empty. -/
def parseADIFMessage (message : String) : Except String QSO :=
  let qso := scanQSO message
  if qso.CALL = "" then Except.error "missing required CALL field in ADIF"
  else Except.ok qso

/-- One serialized field of `generateADIF`: nothing for an empty value, else
`<NAME:len>value` followed by a single space, the length being the Go byte
length of the value. -/
def adifField (name val : String) : String :=
  if val = "" then ""
  else "<" ++ name ++ ":" ++ toString val.utf8ByteSize ++ ">" ++ val ++ " "

/-- The `<NAME:len>value` core of a serialized field (without the trailing
space), used to state that a field value appears verbatim in an ADIF string. -/
def adifTagOf (p : String × String) : String :=
  "<" ++ p.1 ++ ":" ++ toString p.2.utf8ByteSize ++ ">" ++ p.2

/-- The fields written by `generateADIF` with their ADIF tag names, in the
source's emission order. -/
def serializedFields (q : QSO) : List (String × String) :=
  [("CALL", q.CALL),
   ("QSO_DATE", q.QSO_DATE),
   ("TIME_ON", q.TIME_ON),
   ("MODE", q.MODE),
   ("RST_RCVD", q.RST_RCVD),
   ("RST_SENT", q.RST_SENT),
   ("FREQ", q.FREQ),
   ("FREQ_RX", q.FREQ_RX),
   ("BAND", q.BAND),
   ("TX_PWR", q.POWER),
   ("OPERATOR", q.OPERATOR),
   ("MY_CALL", q.MYCALL),
   ("STATION_CALLSIGN", q.STATION_CALLSIGN),
   ("GRIDSQUARE", q.GRIDSQUARE),
   ("COMMENT", q.COMMENT),
   ("STX", q.STX),
   ("SRX", q.SRX),
   ("STX_STRING", q.STX_STRING),
   ("SRX_STRING", q.SRX_STRING),
   ("RTX", q.RTX),
   ("CONTEST_ID", q.CONTEST_ID),
   ("PREFIX", q.PFX),
   ("MY_GRIDSQUARE", q.MY_GRIDSQUARE),
   ("NAME", q.NAME),
   ("QTH", q.QTH),
   ("STATE", q.STATE),
   ("COUNTRY", q.COUNTRY),
   ("CQZ", q.CQZ),
   ("ITUZ", q.ITUZ),
   ("CONT", q.CONT),
   ("IOTA", q.IOTA),
   ("DXCC", q.DXCC),
   ("PROP_MODE", q.PROP_MODE),
   ("SAT_NAME", q.SAT_NAME),
   ("SAT_MODE", q.SAT_MODE),
   ("SUBMODE", q.SUBMODE),
   ("QSLMSG", q.QSLMSG),
   ("NOTES", q.NOTES),
   ("EMAIL", q.EMAIL),
   ("DARC_DOK", q.DARC_DOK),
   ("SOTA_REF", q.SOTA_REF),
   ("WWFF_REF", q.WWFF_REF),
   ("POTA_REF", q.POTA_REF),
   ("CNTY", q.CNTY),
   ("REGION", q.REGION),
   ("LAT", q.LAT),
   ("LON", q.LON),
   ("ANT_AZ", q.ANT_AZ),
   ("ANT_EL", q.ANT_EL),
   ("ANT_PATH", q.ANT_PATH),
   ("A_INDEX", q.A_INDEX),
   ("K_INDEX", q.K_INDEX),
   ("SFI", q.SFI),
   ("RX_PWR", q.RX_PWR)]

/-- Concatenation of a list of strings, left to right. -/
def concatAll : List String → String
  | [] => ""
  | h :: t => h ++ concatAll t

/-- Embedding of `generateADIF`: the fixed header line, then the sequence of
conditional field writes of the source — one `adifField` per entry of
`serializedFields`, in the source's order, empty values contributing
nothing — then the end-of-record marker. -/
def generateADIF (qso : QSO) : String :=
  "<ADIF_VER:5>5.0<EOH>\n" ++
    concatAll ((serializedFields qso).map fun p => adifField p.1 p.2) ++
    "<EOR>\n"

/-- The record fields recognized by `parseADIFMessage`, each under the ADIF
tag name the parser recognizes it by: the serialized fields plus the two
fields (`QSO_DATE_OFF`, `TIME_OFF`) that the parser populates from tags of
those names but that `generateADIF` never emits. -/
def recognizedFields (q : QSO) : List (String × String) :=
  serializedFields q ++ [("QSO_DATE_OFF", q.QSO_DATE_OFF), ("TIME_OFF", q.TIME_OFF)]

/-- The WSJT-X XML structure (`WSJTContactInfo`): the result of
`xml.Unmarshal` on a `contactinfo` payload.  The XML decoding itself is Go
library code; the embedding of `parseXMLMessage` starts from the decoded
structure. -/
structure WSJTContactInfo where
  Timestamp : String := ""
  Call : String := ""
  Mode : String := ""
  TxFreq : String := ""
  RxFreq : String := ""
  Rcv : String := ""
  Snt : String := ""
  Power : String := ""
  Operator : String := ""
  Comment : String := ""
  Sntnr : String := ""
  Rcvnr : String := ""
  MyCall : String := ""
  Gridsquare : String := ""
  deriving Repr, DecidableEq

/-- Days of a month, with leap years, as validated by Go `time.Parse`. -/
def daysInMonth (y m : Nat) : Nat :=
  if m = 2 then if y % 4 = 0 && (y % 100 ≠ 0 || y % 400 = 0) then 29 else 28
  else if m = 4 || m = 6 || m = 9 || m = 11 then 30
  else 31

/-- Model of Go `time.Parse("2006-01-02T15:04:05", ·)` for its zero-padded
canonical form (what the layout's fixed-width numeric verbs require): exactly
`YYYY-MM-DDTHH:MM:SS` with all components in range.  Returns the validated
character list. -/
def goParseTimestamp (s : String) : Option (List Char) :=
  match s.data with
  | [y1, y2, y3, y4, '-', m1, m2, '-', d1, d2, 'T', h1, h2, ':', n1, n2, ':', s1, s2] =>
    if [y1, y2, y3, y4, m1, m2, d1, d2, h1, h2, n1, n2, s1, s2].all Char.isDigit then
      let y := natOfDigits [y1, y2, y3, y4]
      let mo := natOfDigits [m1, m2]
      let d := natOfDigits [d1, d2]
      let h := natOfDigits [h1, h2]
      let mi := natOfDigits [n1, n2]
      let se := natOfDigits [s1, s2]
      if 1 ≤ mo && mo ≤ 12 && 1 ≤ d && d ≤ daysInMonth y mo &&
          h ≤ 23 && mi ≤ 59 && se ≤ 59 then
        some [y1, y2, y3, y4, '-', m1, m2, '-', d1, d2, 'T', h1, h2, ':', n1, n2, ':', s1, s2]
      else none
    else none
  | _ => none

/-- Model of `timestamp.Format("20060102")` on a validated timestamp character
list: the date digits in order. -/
def tsDate (ts : List Char) : String := ⟨ts.take 4 ++ (ts.drop 5).take 2 ++ (ts.drop 8).take 2⟩

/-- Model of `timestamp.Format("150405")` on a validated timestamp character
list: the time digits in order. -/
def tsTime (ts : List Char) : String :=
  ⟨(ts.drop 11).take 2 ++ (ts.drop 14).take 2 ++ (ts.drop 17).take 2⟩

/-- Embedding of `parseXMLMessage` from the decoded `WSJTContactInfo`
structure onward: timestamp parsing, the USB/LSB→SSB mode rewrite, the two
frequency conversions (`ParseFloat`, divide by `100000`, format to six
decimals), and the field mapping of the source's `QSO` literal. -/
def parseXMLMessage (ci : WSJTContactInfo) : Except String QSO :=
  match goParseTimestamp ci.Timestamp with
  | none => Except.error "timestamp parsing failed"
  | some ts =>
    let mode := if ci.Mode = "USB" || ci.Mode = "LSB" then "SSB" else ci.Mode
    match goParseFloatDec ci.TxFreq with
    | none => Except.error "TX frequency parsing failed"
    | some txFreq =>
      match goParseFloatDec ci.RxFreq with
      | none => Except.error "RX frequency parsing failed"
      | some rxFreq =>
        Except.ok
          { CALL := ci.Call
            MODE := mode
            QSO_DATE_OFF := tsDate ts
            QSO_DATE := tsDate ts
            TIME_OFF := tsTime ts
            TIME_ON := tsTime ts
            RST_RCVD := ci.Rcv
            RST_SENT := ci.Snt
            FREQ := fmtFixed 6 (txFreq.divPow10 5)
            FREQ_RX := fmtFixed 6 (rxFreq.divPow10 5)
            OPERATOR := ci.Operator
            COMMENT := ci.Comment
            POWER := ci.Power
            STX := ci.Sntnr
            RTX := ci.Rcvnr
            MYCALL := ci.MyCall
            GRIDSQUARE := ci.Gridsquare
            STATION_CALLSIGN := ci.MyCall }

/-- Split off the part of `l` before the first occurrence of `sep` together
with the part after that occurrence, or `none` when `sep` does not occur. -/
def splitFirst (sep l : List Char) : Option (List Char × List Char) :=
  if containsSub sep l then
    some (l.take (firstIdx sep l), l.drop (firstIdx sep l + sep.length))
  else none

/-- Fuel-bounded worker for `goSplit`; each found separator occurrence
consumes at least one character, so fuel `l.length` is always sufficient for
a non-empty separator. -/
def goSplitAux (sep : List Char) : Nat → List Char → List (List Char)
  | 0, l => [l]
  | fuel + 1, l =>
    match splitFirst sep l with
    | none => [l]
    | some (pre, post) => pre :: goSplitAux sep fuel post

/-- Model of Go `strings.Split` for a non-empty separator: the pieces between
consecutive non-overlapping occurrences of the separator, leftmost first. -/
def goSplit (sep s : String) : List String :=
  (goSplitAux sep.data (s.data.length + 1) s.data).map fun l => ⟨l⟩

/-- The batch splitter of `processMultipleQSOs`: split the payload on the
`<EOR>` delimiter, then for each indexed segment trim it, skip it when empty,
and reappend the delimiter when the index is not the last index of the split
(the source's `i < len(qsoRecords)-1`).  The result is the list of record
strings handed to `processSingleQSO`, in order. -/
def splitRecords (adifPayload : String) : List String :=
  let qsoRecords := goSplit "<EOR>" adifPayload
  let n := qsoRecords.length
  qsoRecords.enum.filterMap fun p =>
    let r := goTrimSpace p.2
    if r = "" then none
    else some (if p.1 < n - 1 then r ++ "<EOR>" else r)

/-- The batch splitter as the claim wording describes it ("the delimiter is
reappended to every segment except the last surviving one"): trim, discard
empties, then reappend the delimiter to all but the last surviving segment.
This definition follows the specification text, for comparison with
`splitRecords` above, which follows the source. -/
def splitRecordsClaimed (adifPayload : String) : List String :=
  let survivors := ((goSplit "<EOR>" adifPayload).map goTrimSpace).filter (· ≠ "")
  survivors.enum.map fun p =>
    if p.1 < survivors.length - 1 then p.2 ++ "<EOR>" else p.2

/-- The record parsed from `"<CALL:5>K1ABC<QSO_DATE_OFF:8>20240101"`. -/
def c1qso : QSO := { CALL := "K1ABC", QSO_DATE_OFF := "20240101", QSO_DATE := "20240101" }

/-- A decoded XML contact whose `txfreq` is the decimal string
`"1407400000"`. -/
def c2ci : WSJTContactInfo :=
  { Timestamp := "2024-01-01T12:00:00", Call := "K1ABC", Mode := "FT8",
    TxFreq := "1407400000", RxFreq := "1407400000" }

/-- The record produced by `parseXMLMessage` for `c2ci` with `txfreq` and
`rxfreq` replaced by `"1407400"`. -/
def c2wq : QSO :=
  { CALL := "K1ABC", MODE := "FT8", QSO_DATE_OFF := "20240101", QSO_DATE := "20240101",
    TIME_OFF := "120000", TIME_ON := "120000", FREQ := "14.074000", FREQ_RX := "14.074000" }

/-- A decoded XML contact whose mode is `USB`. -/
def c7wCI : WSJTContactInfo :=
  { Timestamp := "2024-01-01T12:00:00", Call := "K1ABC", Mode := "USB",
    TxFreq := "1407400", RxFreq := "1407400" }

/-- The record produced by `parseXMLMessage` for `c7wCI`. -/
def c7wQ : QSO :=
  { CALL := "K1ABC", MODE := "SSB", QSO_DATE_OFF := "20240101", QSO_DATE := "20240101",
    TIME_OFF := "120000", TIME_ON := "120000", FREQ := "14.074000", FREQ_RX := "14.074000" }

theorem strData_append (a b : String) : (a ++ b).data = a.data ++ b.data := rfl

theorem sub_of_sub_append_left {p b : List Char} (a : List Char) (h : p <:+: b) :
    p <:+: a ++ b := by
  obtain ⟨s, t, rfl⟩ := h
  exact ⟨a ++ s, t, by simp⟩

theorem sub_of_sub_append_right {p a : List Char} (c : List Char) (h : p <:+: a) :
    p <:+: a ++ c := by
  obtain ⟨s, t, rfl⟩ := h
  exact ⟨s, t ++ c, by simp⟩

theorem adifField_of_ne (n v : String) (h : v ≠ "") :
    adifField n v = adifTagOf (n, v) ++ " " := by
  simp [adifField, adifTagOf, h]

theorem adifTag_sub_concat (l : List (String × String)) (p : String × String)
    (hp : p ∈ l) (hne : p.2 ≠ "") :
    (adifTagOf p).data <:+: (concatAll (l.map fun x => adifField x.1 x.2)).data := by
  induction l with
  | nil => cases hp
  | cons h t ih =>
    cases hp with
    | head =>
      refine ⟨[], (" " ++ concatAll (t.map fun x => adifField x.1 x.2)).data, ?_⟩
      simp only [List.map_cons, concatAll, adifField_of_ne p.1 p.2 hne, strData_append,
        List.nil_append, List.append_assoc]
    | tail _ hp => exact sub_of_sub_append_left _ (ih hp)

set_option maxHeartbeats 2000000 in
theorem setField_BAND (q : QSO) (n d : String) : (setField q n d).BAND = q.BAND := by
  unfold setField
  split <;> rfl

set_option maxHeartbeats 2000000 in
theorem setField_CALL_of_ne (q : QSO) (n d : String) (h : n ≠ "CALL") :
    (setField q n d).CALL = q.CALL := by
  unfold setField
  split <;> simp_all

set_option maxHeartbeats 4000000 in
theorem setField_idem (q : QSO) (n d : String) :
    setField (setField q n d) n d = setField q n d := by
  unfold setField
  split <;> first | rfl | (split <;> simp_all)

theorem extractField_len_zero (msg : List Char) (fs : Nat) : extractField msg fs 0 = [] := by
  unfold extractField
  split
  · apply List.drop_eq_nil_of_le
    simp
    omega
  · apply List.drop_eq_nil_of_le
    simp

theorem applyMatch_BAND (msg : List Char) (q : QSO) (t : ADIFTag) :
    (applyMatch msg q t).BAND = q.BAND := by
  unfold applyMatch
  dsimp only
  by_cases hc : firstIdx t.full msg + t.full.length ≥ msg.length
  · rw [if_pos hc]
  · rw [if_neg hc]
    cases h : goAtoi ⟨t.lenStr⟩ with
    | none => rfl
    | some length => exact setField_BAND q _ _

theorem foldl_applyMatch_BAND (msg : List Char) (ts : List ADIFTag) (q : QSO) :
    (ts.foldl (applyMatch msg) q).BAND = q.BAND := by
  induction ts generalizing q with
  | nil => rfl
  | cons t ts ih => simpa [ih] using applyMatch_BAND msg q t

theorem applyMatch_CALL_empty (msg : List Char) (q : QSO) (t : ADIFTag)
    (hq : q.CALL = "")
    (h : asciiUpperStr ⟨t.name⟩ = "CALL" → t.lenStr = ['0']) :
    (applyMatch msg q t).CALL = "" := by
  unfold applyMatch
  dsimp only
  by_cases hc : firstIdx t.full msg + t.full.length ≥ msg.length
  · rw [if_pos hc]
    exact hq
  · rw [if_neg hc]
    cases ha : goAtoi ⟨t.lenStr⟩ with
    | none => exact hq
    | some length =>
      by_cases hn : asciiUpperStr ⟨t.name⟩ = "CALL"
      · have hlen := h hn
        rw [hlen] at ha
        have h0 : goAtoi ⟨['0']⟩ = some 0 := rfl
        rw [h0] at ha
        obtain rfl : (0 : Nat) = length := Option.some_inj.mp ha
        dsimp only
        rw [extractField_len_zero, hn]
        rfl
      · rw [setField_CALL_of_ne _ _ _ hn]
        exact hq

theorem foldl_applyMatch_CALL_empty (msg : List Char) (ts : List ADIFTag) (q : QSO)
    (hq : q.CALL = "")
    (h : ∀ t ∈ ts, asciiUpperStr ⟨t.name⟩ = "CALL" → t.lenStr = ['0']) :
    (ts.foldl (applyMatch msg) q).CALL = "" := by
  induction ts generalizing q with
  | nil => exact hq
  | cons t ts ih =>
    exact ih _ (applyMatch_CALL_empty msg q t hq (h t (by simp)))
      (fun t' ht' => h t' (by simp [ht']))

/-- C3 (amended): on the payload `"<CALL:5>K1ABC<EOR><CALL:5>K2DEF<EOR>"` the
batch splitter yields exactly two sub-records; the delimiter is reappended to
every segment whose index is not the last index of the split (so, with the
trailing delimiter, to both surviving segments), and each sub-record parses
independently with its own CALL field. -/
theorem c3_batch_split :
    splitRecords "<CALL:5>K1ABC<EOR><CALL:5>K2DEF<EOR>" =
      ["<CALL:5>K1ABC<EOR>", "<CALL:5>K2DEF<EOR>"] ∧
    (parseADIFMessage "<CALL:5>K1ABC<EOR>").map QSO.CALL = Except.ok "K1ABC" ∧
    (parseADIFMessage "<CALL:5>K2DEF<EOR>").map QSO.CALL = Except.ok "K2DEF" :=
  ⟨rfl, rfl, rfl⟩

/-- C3 counterexample: the claim says the delimiter is reappended to every
segment except the last surviving one, but on the claim's own example payload
the source reappends it to the last surviving segment too (that segment's
index is not the last split index — the last split element is the empty
tail), so the claimed splitter output differs from the code's. -/
theorem c3_counterexample :
    splitRecords "<CALL:5>K1ABC<EOR><CALL:5>K2DEF<EOR>" =
      ["<CALL:5>K1ABC<EOR>", "<CALL:5>K2DEF<EOR>"] ∧
    splitRecordsClaimed "<CALL:5>K1ABC<EOR><CALL:5>K2DEF<EOR>" =
      ["<CALL:5>K1ABC<EOR>", "<CALL:5>K2DEF"] ∧
    splitRecords "<CALL:5>K1ABC<EOR><CALL:5>K2DEF<EOR>" ≠
      splitRecordsClaimed "<CALL:5>K1ABC<EOR><CALL:5>K2DEF<EOR>" :=
  ⟨rfl, rfl, by decide⟩

/-- C4: `normalizePower` trims and lowercases its input; when the trimmed,
lowercased string has no leading numeric token the result is that string;
otherwise the value is multiplied by 1000 when `"kw"` occurs anywhere, by
0.001 when `"mw"` occurs (the source checks `"kw"` first), and is rendered
with no decimal places when whole, else exactly three; in particular
`"100"→"100"`, `"1.5kw"→"1500"`, `"500mw"→"0.500"`, `"foo"→"foo"`, `""→""`. -/
theorem c4_normalize_power :
    normalizePower "100" = "100" ∧ normalizePower "1.5kw" = "1500" ∧
    normalizePower "500mw" = "0.500" ∧ normalizePower "foo" = "foo" ∧
    normalizePower "" = "" ∧
    (∀ s, s ≠ "" → extractNumTok (goTrimSpace (asciiLowerStr s)).data = none →
      normalizePower s = goTrimSpace (asciiLowerStr s)) ∧
    (∀ s tok v, s ≠ "" →
      extractNumTok (goTrimSpace (asciiLowerStr s)).data = some tok →
      goParseFloatDec ⟨tok⟩ = some v →
      containsSub ['k', 'w'] (goTrimSpace (asciiLowerStr s)).data = true →
      normalizePower s =
        (if (v.mulNat 1000).isWhole then toString (v.mulNat 1000).wholeVal
         else fmtFixed 3 (v.mulNat 1000))) ∧
    (∀ s tok v, s ≠ "" →
      extractNumTok (goTrimSpace (asciiLowerStr s)).data = some tok →
      goParseFloatDec ⟨tok⟩ = some v →
      containsSub ['k', 'w'] (goTrimSpace (asciiLowerStr s)).data = false →
      containsSub ['m', 'w'] (goTrimSpace (asciiLowerStr s)).data = true →
      normalizePower s =
        (if (v.divPow10 3).isWhole then toString (v.divPow10 3).wholeVal
         else fmtFixed 3 (v.divPow10 3))) ∧
    (∀ s tok v, s ≠ "" →
      extractNumTok (goTrimSpace (asciiLowerStr s)).data = some tok →
      goParseFloatDec ⟨tok⟩ = some v →
      containsSub ['k', 'w'] (goTrimSpace (asciiLowerStr s)).data = false →
      containsSub ['m', 'w'] (goTrimSpace (asciiLowerStr s)).data = false →
      normalizePower s = (if v.isWhole then toString v.wholeVal else fmtFixed 3 v)) := by
  refine ⟨by decide, by decide, by decide, by decide, by decide, ?_, ?_, ?_, ?_⟩
  · intro s h1 h2
    simp [normalizePower, h1, h2]
  · intro s tok v h1 h2 h3 h4
    simp [normalizePower, h1, h2, h3, h4]
  · intro s tok v h1 h2 h3 h4 h5
    simp [normalizePower, h1, h2, h3, h4, h5]
  · intro s tok v h1 h2 h3 h4 h5
    simp [normalizePower, h1, h2, h3, h4, h5]

/-- C4 witness: the `"kw"` branch of the theorem applied at `"2kw"`. -/
theorem c4_normalize_power_witness :
    normalizePower "2kw" =
      (if ((⟨2, 0⟩ : Dec).mulNat 1000).isWhole then toString ((⟨2, 0⟩ : Dec).mulNat 1000).wholeVal
       else fmtFixed 3 ((⟨2, 0⟩ : Dec).mulNat 1000)) :=
  c4_normalize_power.2.2.2.2.2.2.1 "2kw" ['2'] ⟨2, 0⟩ (by decide) (by decide) (by decide)
    (by decide)

/-- C5: `calculateBand` returns the empty string when the frequency string
does not parse as a decimal number, otherwise the name of the first entry of
the fixed band table whose inclusive range contains the value, and the empty
string when no entry matches; in particular `"14.074"→"20M"`,
`"7.040"→"40M"`, `"1.900"→"160M"`, `"13.000"→""`, `"not-a-number"→""`. -/
theorem c5_calculate_band :
    calculateBand "14.074" = "20M" ∧ calculateBand "7.040" = "40M" ∧
    calculateBand "1.900" = "160M" ∧ calculateBand "13.000" = "" ∧
    calculateBand "not-a-number" = "" ∧
    (∀ s, goParseFloatDec s = none → calculateBand s = "") ∧
    (∀ s f b, goParseFloatDec s = some f →
      bandMap.find? (fun e => e.2.1.leb f && f.leb e.2.2) = some b →
      calculateBand s = b.1) ∧
    (∀ s f, goParseFloatDec s = some f →
      bandMap.find? (fun e => e.2.1.leb f && f.leb e.2.2) = none →
      calculateBand s = "") := by
  refine ⟨by decide, by decide, by decide, by decide, by decide, ?_, ?_, ?_⟩
  · intro s h
    simp [calculateBand, h]
  · intro s f b h1 h2
    simp [calculateBand, h1, h2]
  · intro s f h1 h2
    simp [calculateBand, h1, h2]

/-- C5 witness: the fail-open branch of the theorem applied at `"99xyz"`. -/
theorem c5_calculate_band_witness : calculateBand "99xyz" = "" :=
  c5_calculate_band.2.2.2.2.2.1 "99xyz" (by decide)

/-- C10: processing a tag match reads its data from the position immediately
after the first occurrence of the matched tag text in the whole message, so
processing the same tag text twice equals processing it once (the data after
a later duplicate occurrence never populates the record); in particular
`"<CALL:5>K1ABC<CALL:5>K2DEF"` parses with CALL `"K1ABC"`. -/
theorem c10_duplicate_tag_first_occurrence :
    (∀ (msg : List Char) (q : QSO) (t : ADIFTag),
      applyMatch msg (applyMatch msg q t) t = applyMatch msg q t) ∧
    parseADIFMessage "<CALL:5>K1ABC<CALL:5>K2DEF" = Except.ok { CALL := "K1ABC" } := by
  refine ⟨?_, rfl⟩
  intro msg q t
  unfold applyMatch
  dsimp only
  by_cases hc : firstIdx t.full msg + t.full.length ≥ msg.length
  · simp only [if_pos hc]
  · simp only [if_neg hc]
    cases ha : goAtoi ⟨t.lenStr⟩ with
    | none => rfl
    | some length => exact setField_idem q _ _

/-- C6: `parseADIFMessage` returns an error exactly when the record
accumulated from all tags has an empty call-sign field; in particular every
payload whose CALL tags (if any) all declare length 0 — which covers payloads
with no CALL tag and payloads with `<CALL:0>` as their only CALL tag — fails
with the parse error, and this is the parser's only hard failure. -/
theorem c6_adif_error_iff_missing_call :
    (∀ m, (∃ e, parseADIFMessage m = Except.error e) ↔ (scanQSO m).CALL = "") ∧
    (∀ m, (∀ t ∈ findTags m.data, asciiUpperStr ⟨t.name⟩ = "CALL" → t.lenStr = ['0']) →
      parseADIFMessage m = Except.error "missing required CALL field in ADIF") := by
  constructor
  · intro m
    unfold parseADIFMessage
    by_cases h : (scanQSO m).CALL = "" <;> simp [h]
  · intro m h
    have hcall : (scanQSO m).CALL = "" :=
      foldl_applyMatch_CALL_empty m.data (findTags m.data) {} rfl h
    unfold parseADIFMessage
    simp [hcall]

/-- C6 witness: the theorem applied at the empty payload, which has no tags
at all. -/
theorem c6_adif_error_iff_missing_call_witness :
    parseADIFMessage "" = Except.error "missing required CALL field in ADIF" :=
  c6_adif_error_iff_missing_call.2 "" (by intro t ht; cases ht)

/-- C7: the USB/LSB→SSB rewrite happens only on the XML path: any decoded XML
contact whose mode is `USB` or `LSB` yields a record with mode `SSB`, while
the ADIF payload `"<CALL:5>K1ABC<MODE:3>USB"` yields mode `USB` (and the LSB
variant yields `LSB`) — the ADIF parser passes MODE through unconverted. -/
theorem c7_mode_conversion_asymmetry :
    (∀ ci q, parseXMLMessage ci = Except.ok q → (ci.Mode = "USB" ∨ ci.Mode = "LSB") →
      q.MODE = "SSB") ∧
    (parseADIFMessage "<CALL:5>K1ABC<MODE:3>USB").map QSO.MODE = Except.ok "USB" ∧
    (parseADIFMessage "<CALL:5>K1ABC<MODE:3>LSB").map QSO.MODE = Except.ok "LSB" := by
  refine ⟨?_, rfl, rfl⟩
  intro ci q hp hm
  unfold parseXMLMessage at hp
  dsimp only at hp
  have hmode : (if ci.Mode = "USB" || ci.Mode = "LSB" then "SSB" else ci.Mode) = "SSB" := by
    rcases hm with hm | hm <;> simp [hm]
  rw [hmode] at hp
  split at hp
  · exact Except.noConfusion hp
  · split at hp
    · exact Except.noConfusion hp
    · split at hp
      · exact Except.noConfusion hp
      · cases hp
        rfl

/-- C7 witness: the theorem applied to the concrete USB contact `c7wCI`. -/
theorem c7_mode_conversion_asymmetry_witness : c7wQ.MODE = "SSB" :=
  c7_mode_conversion_asymmetry.1 c7wCI c7wQ rfl (Or.inl rfl)

/-- C8: the ADIF data read is total and never reaches past the end of the
payload: the extracted slice never exceeds the characters remaining after the
field start; when the declared length would overrun, the read is truncated to
the remaining characters; a tag whose length does not parse is skipped with
the record unchanged; and the only error the parser ever returns is the
missing-CALL error. -/
theorem c8_adif_reader_total :
    (∀ (msg : List Char) (fs len : Nat),
      (extractField msg fs len).length ≤ msg.length - fs) ∧
    (∀ (msg : List Char) (fs len : Nat), fs + len > msg.length →
      extractField msg fs len = msg.drop fs) ∧
    (∀ (msg : List Char) (q : QSO) (t : ADIFTag), goAtoi ⟨t.lenStr⟩ = none →
      applyMatch msg q t = q) ∧
    (∀ m e, parseADIFMessage m = Except.error e →
      e = "missing required CALL field in ADIF") := by
  refine ⟨?_, ?_, ?_, ?_⟩
  · intro msg fs len
    unfold extractField
    split <;> (simp only [List.length_drop, List.length_take]; omega)
  · intro msg fs len h
    unfold extractField
    rw [if_pos h]
    dsimp only
    rw [List.take_length]
  · intro msg q t h
    unfold applyMatch
    dsimp only
    by_cases hc : firstIdx t.full msg + t.full.length ≥ msg.length
    · rw [if_pos hc]
    · rw [if_neg hc, h]
  · intro m e hp
    unfold parseADIFMessage at hp
    dsimp only at hp
    split at hp
    · exact (Except.error.inj hp).symm
    · exact Except.noConfusion hp

/-- C8 witness: the truncation branch of the theorem applied to a three
character message with a declared length of five. -/
theorem c8_adif_reader_total_witness :
    extractField ['a', 'b', 'c'] 1 5 = List.drop 1 ['a', 'b', 'c'] :=
  c8_adif_reader_total.2.1 ['a', 'b', 'c'] 1 5 (by decide)

theorem normalizeQSO_BAND (q : QSO) (hB : q.BAND = "") :
    (normalizeQSO q).BAND = if q.FREQ = "" then "" else calculateBand q.FREQ := by
  unfold normalizeQSO
  dsimp only
  by_cases h : q.FREQ = ""
  · simp [h, hB]
  · simp [h]

/-- C9: for every record produced by parse-then-normalize (ADIF or XML), the
band field is consistent with the frequency field — after parsing the band is
empty (no parser reads a BAND tag; the ADIF parser has no BAND case), and
after normalization it equals the band computed from the frequency when the
frequency is non-empty and stays empty otherwise; and normalization changes
no record field other than POWER and BAND. -/
theorem c9_band_freq_consistency :
    (∀ m q, parseADIFMessage m = Except.ok q →
      q.BAND = "" ∧
      (normalizeQSO q).BAND = (if q.FREQ = "" then "" else calculateBand q.FREQ)) ∧
    (∀ ci q, parseXMLMessage ci = Except.ok q →
      q.BAND = "" ∧
      (normalizeQSO q).BAND = (if q.FREQ = "" then "" else calculateBand q.FREQ)) ∧
    (∀ q : QSO, (normalizeQSO q).CALL = q.CALL ∧ (normalizeQSO q).MODE = q.MODE ∧
      (normalizeQSO q).QSO_DATE_OFF = q.QSO_DATE_OFF ∧ (normalizeQSO q).QSO_DATE = q.QSO_DATE ∧
      (normalizeQSO q).TIME_OFF = q.TIME_OFF ∧ (normalizeQSO q).TIME_ON = q.TIME_ON ∧
      (normalizeQSO q).RST_RCVD = q.RST_RCVD ∧ (normalizeQSO q).RST_SENT = q.RST_SENT ∧
      (normalizeQSO q).FREQ = q.FREQ ∧ (normalizeQSO q).FREQ_RX = q.FREQ_RX ∧
      (normalizeQSO q).OPERATOR = q.OPERATOR ∧ (normalizeQSO q).COMMENT = q.COMMENT ∧
      (normalizeQSO q).STX = q.STX ∧ (normalizeQSO q).SRX = q.SRX ∧
      (normalizeQSO q).STX_STRING = q.STX_STRING ∧ (normalizeQSO q).SRX_STRING = q.SRX_STRING ∧
      (normalizeQSO q).RTX = q.RTX ∧ (normalizeQSO q).MYCALL = q.MYCALL ∧
      (normalizeQSO q).GRIDSQUARE = q.GRIDSQUARE ∧
      (normalizeQSO q).MY_GRIDSQUARE = q.MY_GRIDSQUARE ∧
      (normalizeQSO q).STATION_CALLSIGN = q.STATION_CALLSIGN ∧
      (normalizeQSO q).NAME = q.NAME ∧
      (normalizeQSO q).QTH = q.QTH ∧ (normalizeQSO q).STATE = q.STATE ∧
      (normalizeQSO q).COUNTRY = q.COUNTRY ∧ (normalizeQSO q).CQZ = q.CQZ ∧
      (normalizeQSO q).ITUZ = q.ITUZ ∧ (normalizeQSO q).CONT = q.CONT ∧
      (normalizeQSO q).IOTA = q.IOTA ∧ (normalizeQSO q).DXCC = q.DXCC ∧
      (normalizeQSO q).PROP_MODE = q.PROP_MODE ∧ (normalizeQSO q).SAT_NAME = q.SAT_NAME ∧
      (normalizeQSO q).SAT_MODE = q.SAT_MODE ∧ (normalizeQSO q).CONTEST_ID = q.CONTEST_ID ∧
      (normalizeQSO q).PFX = q.PFX ∧ (normalizeQSO q).SUBMODE = q.SUBMODE ∧
      (normalizeQSO q).QSLMSG = q.QSLMSG ∧ (normalizeQSO q).NOTES = q.NOTES ∧
      (normalizeQSO q).EMAIL = q.EMAIL ∧ (normalizeQSO q).DARC_DOK = q.DARC_DOK ∧
      (normalizeQSO q).SOTA_REF = q.SOTA_REF ∧ (normalizeQSO q).WWFF_REF = q.WWFF_REF ∧
      (normalizeQSO q).POTA_REF = q.POTA_REF ∧ (normalizeQSO q).CNTY = q.CNTY ∧
      (normalizeQSO q).REGION = q.REGION ∧ (normalizeQSO q).LAT = q.LAT ∧
      (normalizeQSO q).LON = q.LON ∧ (normalizeQSO q).ANT_AZ = q.ANT_AZ ∧
      (normalizeQSO q).ANT_EL = q.ANT_EL ∧ (normalizeQSO q).ANT_PATH = q.ANT_PATH ∧
      (normalizeQSO q).A_INDEX = q.A_INDEX ∧ (normalizeQSO q).K_INDEX = q.K_INDEX ∧
      (normalizeQSO q).SFI = q.SFI ∧ (normalizeQSO q).RX_PWR = q.RX_PWR) := by
  refine ⟨?_, ?_, ?_⟩
  · intro m q hp
    unfold parseADIFMessage at hp
    dsimp only at hp
    split at hp
    · exact Except.noConfusion hp
    · cases hp
      have hB : (scanQSO m).BAND = "" :=
        foldl_applyMatch_BAND m.data (findTags m.data) {}
      exact ⟨hB, normalizeQSO_BAND _ hB⟩
  · intro ci q hp
    unfold parseXMLMessage at hp
    split at hp
    · exact Except.noConfusion hp
    · split at hp <;> split at hp
      all_goals
        first
        | exact Except.noConfusion hp
        | (split at hp
           · exact Except.noConfusion hp
           · cases hp
             exact ⟨rfl, normalizeQSO_BAND _ rfl⟩)
  · intro q
    unfold normalizeQSO
    dsimp only
    split <;> simp

set_option maxRecDepth 8000 in
/-- C9 witness: the ADIF branch of the theorem applied to a payload carrying
a CALL and a FREQ tag. -/
theorem c9_band_freq_consistency_witness :
    ({ CALL := "K1ABC", FREQ := "14.074" } : QSO).BAND = "" ∧
    (normalizeQSO { CALL := "K1ABC", FREQ := "14.074" }).BAND =
      (if ({ CALL := "K1ABC", FREQ := "14.074" } : QSO).FREQ = "" then ""
       else calculateBand ({ CALL := "K1ABC", FREQ := "14.074" } : QSO).FREQ) :=
  c9_band_freq_consistency.1 "<CALL:5>K1ABC<FREQ:6>14.074"
    { CALL := "K1ABC", FREQ := "14.074" } rfl

/-- C1 (amended): for every successfully parsed ADIF payload, every
serialized field of the parsed record — every recognized field except
`QSO_DATE_OFF` and `TIME_OFF`, which the parser populates but `generateADIF`
never emits — appears in the generated ADIF string as its tag with its value
verbatim. -/
theorem c1_serialize_preserves_fields (m : String) (q : QSO)
    (_hp : parseADIFMessage m = Except.ok q) :
    ∀ p ∈ serializedFields q, p.2 ≠ "" →
      (adifTagOf p).data <:+: (generateADIF q).data := by
  intro p hmem hne
  have h1 := adifTag_sub_concat (serializedFields q) p hmem hne
  have h2 : (generateADIF q).data =
      ("<ADIF_VER:5>5.0<EOH>\n").data ++
        ((concatAll ((serializedFields q).map fun x => adifField x.1 x.2)).data ++
          ("<EOR>\n").data) := by
    simp [generateADIF, strData_append, List.append_assoc]
  rw [h2]
  exact sub_of_sub_append_left _ (sub_of_sub_append_right _ h1)

/-- C1 witness: the theorem applied to the payload `"<CALL:5>K1ABC"` and its
CALL field. -/
theorem c1_serialize_preserves_fields_witness :
    (adifTagOf ("CALL", "K1ABC")).data <:+: (generateADIF { CALL := "K1ABC" }).data :=
  c1_serialize_preserves_fields "<CALL:5>K1ABC" { CALL := "K1ABC" } rfl ("CALL", "K1ABC")
    (by simp [serializedFields]) (by decide)

set_option maxRecDepth 20000 in
/-- C1 counterexample: the payload `"<CALL:5>K1ABC<QSO_DATE_OFF:8>20240101"`
parses successfully and its recognized field `QSO_DATE_OFF` holds
`"20240101"`, yet the generated ADIF string does not contain that field's tag
with its value (the serializer never emits `QSO_DATE_OFF`), refuting the
claim as stated. -/
theorem c1_counterexample :
    parseADIFMessage "<CALL:5>K1ABC<QSO_DATE_OFF:8>20240101" = Except.ok c1qso ∧
    ("QSO_DATE_OFF", "20240101") ∈ recognizedFields c1qso ∧
    ("QSO_DATE_OFF", "20240101").2 ≠ "" ∧
    ¬ ((adifTagOf ("QSO_DATE_OFF", "20240101")).data <:+: (generateADIF c1qso).data) :=
  ⟨rfl, by decide, by decide, by decide⟩

/-- C2 (amended): each XML frequency field is divided by 100000 and formatted
to exactly six decimal places; for a `txfreq` of `"1407400000"` this yields a
FREQ field of `"14074.000000"` (the value that yields `"14.074000"` is
`"1407400"`). -/
theorem c2_xml_freq_conversion :
    (∀ ci q t, parseXMLMessage ci = Except.ok q → goParseFloatDec ci.TxFreq = some t →
      q.FREQ = fmtFixed 6 (t.divPow10 5)) ∧
    (parseXMLMessage c2ci).map QSO.FREQ = Except.ok "14074.000000" ∧
    (parseXMLMessage { c2ci with TxFreq := "1407400", RxFreq := "1407400" }).map QSO.FREQ =
      Except.ok "14.074000" := by
  refine ⟨?_, rfl, rfl⟩
  intro ci q t hp ht
  unfold parseXMLMessage at hp
  split at hp
  · exact Except.noConfusion hp
  · split at hp <;> split at hp
    all_goals
      first
      | exact Except.noConfusion hp
      | (split at hp
         · exact Except.noConfusion hp
         · cases hp
           simp_all)

/-- C2 witness: the theorem applied to the contact with `txfreq`
`"1407400"`. -/
theorem c2_xml_freq_conversion_witness :
    c2wq.FREQ = fmtFixed 6 ((⟨1407400, 0⟩ : Dec).divPow10 5) :=
  c2_xml_freq_conversion.1 { c2ci with TxFreq := "1407400", RxFreq := "1407400" } c2wq
    ⟨1407400, 0⟩ rfl rfl

/-- C2 counterexample: with `txfreq` the decimal string `"1407400000"` the
code produces FREQ `"14074.000000"` (1407400000 / 100000 = 14074), not the
claimed `"14.074000"`. -/
theorem c2_counterexample :
    (parseXMLMessage c2ci).map QSO.FREQ = Except.ok "14074.000000" ∧
    ("14074.000000" : String) ≠ "14.074000" :=
  ⟨rfl, by decide⟩
